import Mathlib

/-!
Shallow embedding of the WAMP message codec
(`autobahn/wamp/message.py`): Python values, the three primitive
validators, the serialization cache of the `Message` base class, and the
message variants with their `parse` / `marshal` operations, followed by
theorems about the embedded code.
-/

namespace Wamp

/-- A Python value as it occurs in unserialized wire messages.  The
constructors mirror Python's runtime types exactly as the source tests
them with `type(...)`: `bool` is a distinct constructor because
`type(True)` is `bool`, which the source's `type(value) not in [int, long]`
checks reject.  Dicts are insertion-ordered association lists. -/
inductive PyVal where
  | none
  | int (n : Int)
  | bool (b : Bool)
  | str (s : String)
  | list (xs : List PyVal)
  | dict (entries : List (PyVal × PyVal))

/-- The exceptions the codec can raise.  `protocolError` models
`autobahn.wamp.exception.ProtocolError`; the others model built-in Python
exceptions that escape from bugs in the source (wrong-arity constructor
calls, undefined names in format arguments, malformed format strings),
and `assertionError` models a failing `assert`. -/
inductive PyErr where
  | protocolError (msg : String)
  | typeError (msg : String)
  | nameError (msg : String)
  | indexError (msg : String)
  | assertionError

/-- `True` exactly for `PyVal.str`; mirrors `type(x) in (str, unicode)`. -/
def isStr : PyVal → Bool
  | .str _ => true
  | _ => false

/-- `True` exactly for `PyVal.int`; mirrors `type(x) in [int, long]`. -/
def isInt : PyVal → Bool
  | .int _ => true
  | _ => false

/-- Python truthiness of a value, as used by `if self.kwargs:` etc. -/
def truthy : PyVal → Bool
  | .none => false
  | .int n => n != 0
  | .bool b => b
  | .str s => s != ""
  | .list xs => !xs.isEmpty
  | .dict es => !es.isEmpty

/-- `x is None`, the test used by the marshal routines. -/
def isNone : PyVal → Bool
  | .none => true
  | _ => false

/-- Equality of a dict key with a string literal, as in `k == 'match'`;
a non-string key never equals a string. -/
def keyEq : PyVal → String → Bool
  | .str s, t => s == t
  | _, _ => false

/-- `options.has_key('k')`. -/
def dictHasKey (es : List (PyVal × PyVal)) (k : String) : Bool :=
  es.any (fun kv => keyEq kv.1 k)

/-- `options['k']` (only called after `has_key`; absent keys map to an
arbitrary `PyVal.none`, never reached by the embedded code). -/
def dictGet (es : List (PyVal × PyVal)) (k : String) : PyVal :=
  match es.find? (fun kv => keyEq kv.1 k) with
  | some kv => kv.2
  | _ => PyVal.none

/-- The entries of a dict value (only applied to validated dicts). -/
def PyVal.dictEntries : PyVal → List (PyVal × PyVal)
  | .dict es => es
  | _ => []

/-- Sequencing of fallible steps, mirroring Python's exception
propagation: the first raise wins. -/
def bindE {α β : Type} (r : Except PyErr α) (f : α → Except PyErr β) : Except PyErr β :=
  match r with
  | .error e => .error e
  | .ok v => f v

/-- `True` when a codec result is a raised `ProtocolError`. -/
def isProtoError {α : Type} : Except PyErr α → Bool
  | .error (.protocolError _) => true
  | _ => false

/-- `check_or_raise_uri` from the source: the value must be `str` or
`unicode` and non-empty, else `ProtocolError`. -/
def check_or_raise_uri (value : PyVal) (message : String) : Except PyErr PyVal :=
  match value with
  | .str s =>
      if s.length == 0 then
        .error (.protocolError (message ++ ": invalid value for URI"))
      else .ok (.str s)
  | _ => .error (.protocolError (message ++ ": invalid type for URI"))

/-- `check_or_raise_id` from the source: the value must have type `int`
or `long` and satisfy `0 <= value <= 9007199254740992` (2**53), else
`ProtocolError`; on success the value is returned unchanged. -/
def check_or_raise_id (value : PyVal) (message : String) : Except PyErr PyVal :=
  match value with
  | .int n =>
      if n < 0 ∨ 9007199254740992 < n then
        .error (.protocolError (message ++ ": invalid value for ID"))
      else .ok (.int n)
  | _ => .error (.protocolError (message ++ ": invalid type for ID"))

/-- `check_or_raise_extra` from the source: the value must be a `dict`
and every key a string.  On a non-string key the source executes
`"{}: invalid type {} for key '{}'".format(type(k), k)` — a format
string with three placeholders but only two arguments — so the exception
actually raised there is `IndexError`, not `ProtocolError`. -/
def check_or_raise_extra (value : PyVal) (message : String) : Except PyErr PyVal :=
  match value with
  | .dict es =>
      if es.all (fun kv => isStr kv.1) then .ok (.dict es)
      else .error (.indexError "tuple index out of range")
  | _ => .error (.protocolError (message ++ ": invalid type"))

/-- The check applied to a trailing `Arguments|list` element when the
wire array is long enough to carry one (`if len(wmsg) > i: ... if
type(args) != list: raise ProtocolError`); `Option.none` means the
element is absent. -/
def checkArgsSlot : Option PyVal → String → Except PyErr PyVal
  | Option.none, _ => .ok PyVal.none
  | some (.list xs), _ => .ok (.list xs)
  | some _, ctx => .error (.protocolError ("invalid type for args in " ++ ctx))

/-- The check applied to a trailing `ArgumentsKw|dict` element. -/
def checkKwargsSlot : Option PyVal → String → Except PyErr PyVal
  | Option.none, _ => .ok PyVal.none
  | some (.dict es), _ => .ok (.dict es)
  | some _, ctx => .error (.protocolError ("invalid type for kwargs in " ++ ctx))

/-- Probe of a recognized boolean option/detail key: absent keys yield
`None`, present keys must have type `bool`. -/
def probeBoolOption (options : List (PyVal × PyVal)) (key ctx : String) : Except PyErr PyVal :=
  if dictHasKey options key then
    match dictGet options key with
    | .bool b => .ok (.bool b)
    | _ => .error (.protocolError ("invalid type for " ++ key ++ " option in " ++ ctx))
  else .ok PyVal.none

/-- Probe of a recognized list-of-ids option key (`exclude`, `eligible`,
`pkeys`): the value must be a `list` and every element an `int`/`long`
(element values are not range-checked by the source). -/
def probeIntListOption (options : List (PyVal × PyVal)) (key ctx : String) : Except PyErr PyVal :=
  if dictHasKey options key then
    match dictGet options key with
    | .list xs =>
        if xs.all isInt then .ok (.list xs)
        else .error (.protocolError ("invalid type for value in " ++ key ++ " option in " ++ ctx))
    | _ => .error (.protocolError ("invalid type for " ++ key ++ " option in " ++ ctx))
  else .ok PyVal.none

/-- Probe of a `timeout` option/detail: type `int`/`long`, value `>= 0`. -/
def probeTimeoutOption (options : List (PyVal × PyVal)) (ctx : String) : Except PyErr PyVal :=
  if dictHasKey options "timeout" then
    match dictGet options "timeout" with
    | .int n =>
        if n < 0 then .error (.protocolError ("invalid value for timeout option in " ++ ctx))
        else .ok (.int n)
    | _ => .error (.protocolError ("invalid type for timeout option in " ++ ctx))
  else .ok PyVal.none

/-- Probe of the `discloseme` option as written in `Publish.parse` and
`Call.parse`: when the value is not a `bool`, the `raise ProtocolError`
line formats `type(option_identifyMe)` — a name that is never defined —
so the exception actually raised is `NameError`, not `ProtocolError`. -/
def probeDiscloseMeOption (options : List (PyVal × PyVal)) : Except PyErr PyVal :=
  if dictHasKey options "discloseme" then
    match dictGet options "discloseme" with
    | .bool b => .ok (.bool b)
    | _ => .error (.nameError "global name option_identifyMe is not defined")
  else .ok PyVal.none

/-- `ERROR` message (code 4): fields assigned by `Error.__init__`.
Attributes hold arbitrary Python values, as in the source. -/
structure Error where
  session : PyVal
  request_type : PyVal
  request : PyVal
  error : PyVal
  args : PyVal
  kwargs : PyVal

/-- `Error.__init__`: plain attribute assignment, no assertion. -/
def Error.make (session request_type request error args kwargs : PyVal) : Except PyErr Error :=
  .ok { session := session, request_type := request_type, request := request,
        error := error, args := args, kwargs := kwargs }

/-- The body of `Error.parse` after the length dispatch: validators are
applied in source order, and the validated `details` dict is bound but
never passed to the constructed object. -/
def Error.parseCore (s rt r d e : PyVal) (argsSlot kwargsSlot : Option PyVal) :
    Except PyErr Error :=
  bindE (check_or_raise_id s "session in ERROR") fun session =>
  bindE (match rt with
         | .int n =>
             if n == 32 || n == 34 || n == 16 || n == 64 || n == 66 || n == 48 || n == 68 then
               .ok (PyVal.int n)
             else .error (.protocolError "invalid value for request_type in ERROR")
         | _ => .error (.protocolError "invalid type for request_type in ERROR")) fun request_type =>
  bindE (check_or_raise_id r "request in ERROR") fun request =>
  bindE (check_or_raise_extra d "details in ERROR") fun _details =>
  bindE (check_or_raise_uri e "error in ERROR") fun error =>
  bindE (checkArgsSlot argsSlot "ERROR") fun args =>
  bindE (checkKwargsSlot kwargsSlot "ERROR") fun kwargs =>
  Error.make session request_type request error args kwargs

/-- `Error.parse`: allowed lengths 6, 7, 8 (any other length raises
`ProtocolError`); the leading type-code assertion is a precondition
checked by the caller (`WampSerializer.unserialize`), per the source
comment. -/
def Error.parse (wmsg : List PyVal) : Except PyErr Error :=
  match wmsg with
  | [_, s, rt, r, d, e] => Error.parseCore s rt r d e Option.none Option.none
  | [_, s, rt, r, d, e, a] => Error.parseCore s rt r d e (some a) Option.none
  | [_, s, rt, r, d, e, a, kw] => Error.parseCore s rt r d e (some a) (some kw)
  | _ => .error (.protocolError "invalid message length for ERROR")

/-- `Error.marshal`: always emits a freshly built empty `details` dict,
and appends `args`/`kwargs` by truthiness. -/
def Error.marshal (m : Error) : List PyVal :=
  if truthy m.kwargs then
    [.int 4, m.session, m.request_type, m.request, .dict [], m.error, m.args, m.kwargs]
  else if truthy m.args then
    [.int 4, m.session, m.request_type, m.request, .dict [], m.error, m.args]
  else
    [.int 4, m.session, m.request_type, m.request, .dict [], m.error]

/-- `SUBSCRIBE` message (code 32): fields assigned by
`Subscribe.__init__` (`match` is a Lean keyword, hence `match_`). -/
structure Subscribe where
  session : PyVal
  request : PyVal
  topic : PyVal
  match_ : PyVal

/-- `Subscribe.parse`: single allowed length 5; the `match` option
defaults to `'exact'` and, when present, must be a string in
`{exact, prefix, wildcard}`.  Unrecognized option keys are not
inspected and are not carried into the constructed object. -/
def Subscribe.parse (wmsg : List PyVal) : Except PyErr Subscribe :=
  match wmsg with
  | [_, s, r, o, t] =>
      bindE (check_or_raise_id s "session in SUBSCRIBE") fun session =>
      bindE (check_or_raise_id r "request in SUBSCRIBE") fun request =>
      bindE (check_or_raise_extra o "options in SUBSCRIBE") fun optionsV =>
      bindE (check_or_raise_uri t "topic in SUBSCRIBE") fun topic =>
      let options := optionsV.dictEntries
      bindE (if dictHasKey options "match" then
               match dictGet options "match" with
               | .str m =>
                   if m == "exact" || m == "prefix" || m == "wildcard" then .ok (PyVal.str m)
                   else .error (.protocolError "invalid value for match option in SUBSCRIBE")
               | _ => .error (.protocolError "invalid type for match option in SUBSCRIBE")
             else .ok (PyVal.str "exact")) fun match_ =>
      .ok { session := session, request := request, topic := topic, match_ := match_ }
  | _ => .error (.protocolError "invalid message length for SUBSCRIBE")

/-- `x != 'exact'` on a Python value: differs from the string unless it
is that very string. -/
def pyStrNe : PyVal → String → Bool
  | .str s, t => s != t
  | _, _ => true

/-- `Subscribe.marshal`: emits the `match` option only when it is set
and differs from the `'exact'` default. -/
def Subscribe.marshal (m : Subscribe) : List PyVal :=
  let options : List (PyVal × PyVal) :=
    if truthy m.match_ && pyStrNe m.match_ "exact" then [(.str "match", m.match_)] else []
  [.int 32, m.session, m.request, .dict options, m.topic]

/-- `UNSUBSCRIBE` message (code 34).  Note: the source's
`Unsubscribe.__init__(self, request, subscription)` takes only two
parameters (its docstring documents a `session` parameter that the
signature lacks, and its body reads an undefined `session` name). -/
structure Unsubscribe where
  session : PyVal
  request : PyVal
  subscription : PyVal

/-- `Unsubscribe.parse`: single allowed length 4.  After the three id
validations the source executes `Unsubscribe(session, request,
subscription)` — three arguments for the two-parameter `__init__` — so
every wire array that passes validation raises `TypeError`. -/
def Unsubscribe.parse (wmsg : List PyVal) : Except PyErr Unsubscribe :=
  match wmsg with
  | [_, s, r, sub] =>
      bindE (check_or_raise_id s "session in UNSUBSCRIBE") fun _session =>
      bindE (check_or_raise_id r "request in UNSUBSCRIBE") fun _request =>
      bindE (check_or_raise_id sub "subscription in UNSUBSCRIBE") fun _subscription =>
      .error (.typeError "Unsubscribe takes exactly 3 arguments (4 given)")
  | _ => .error (.protocolError "invalid message length for WAMP UNSUBSCRIBE")

/-- `UNREGISTERED` message (code 67): fields assigned by
`Unregistered.__init__(self, session, request)`. -/
structure Unregistered where
  session : PyVal
  request : PyVal

/-- `Unregistered.parse`: single allowed length 3.  After validating
both ids the source executes `Unregistered(request)` — one argument for
the two-parameter `__init__(self, session, request)` — so every wire
array that passes validation raises `TypeError` (and the validated
`session` is dropped regardless). -/
def Unregistered.parse (wmsg : List PyVal) : Except PyErr Unregistered :=
  match wmsg with
  | [_, s, r] =>
      bindE (check_or_raise_id s "session in UNREGISTER") fun _session =>
      bindE (check_or_raise_id r "request in UNREGISTER") fun _request =>
      .error (.typeError "Unregistered takes exactly 3 arguments (2 given)")
  | _ => .error (.protocolError "invalid message length for UNREGISTER")

/-- `Unregistered.marshal`. -/
def Unregistered.marshal (m : Unregistered) : List PyVal :=
  [.int 67, m.session, m.request]

/-- `PUBLISH` message (code 16): fields assigned by `Publish.__init__`. -/
structure Publish where
  session : PyVal
  request : PyVal
  topic : PyVal
  args : PyVal
  kwargs : PyVal
  acknowledge : PyVal
  excludeMe : PyVal
  exclude : PyVal
  eligible : PyVal
  discloseMe : PyVal

/-- `Publish.__init__`: `assert(not (kwargs and not args))`, then
attribute assignment. -/
def Publish.make (session request topic args kwargs acknowledge excludeMe exclude eligible discloseMe : PyVal) :
    Except PyErr Publish :=
  if truthy kwargs && !truthy args then .error .assertionError
  else .ok { session := session, request := request, topic := topic, args := args,
             kwargs := kwargs, acknowledge := acknowledge, excludeMe := excludeMe,
             exclude := exclude, eligible := eligible, discloseMe := discloseMe }

/-- The body of `Publish.parse` after the length dispatch, in source
order: fixed fields, trailing args/kwargs container checks, then the
recognized option probes, then the constructor (whose assert can still
fire). -/
def Publish.parseCore (s r o t : PyVal) (argsSlot kwargsSlot : Option PyVal) :
    Except PyErr Publish :=
  bindE (check_or_raise_id s "session in PUBLISH") fun session =>
  bindE (check_or_raise_id r "request in PUBLISH") fun request =>
  bindE (check_or_raise_extra o "options in PUBLISH") fun optionsV =>
  bindE (check_or_raise_uri t "topic in PUBLISH") fun topic =>
  bindE (checkArgsSlot argsSlot "PUBLISH") fun args =>
  bindE (checkKwargsSlot kwargsSlot "PUBLISH") fun kwargs =>
  let options := optionsV.dictEntries
  bindE (probeBoolOption options "acknowledge" "PUBLISH") fun acknowledge =>
  bindE (probeBoolOption options "excludeme" "PUBLISH") fun excludeMe =>
  bindE (probeIntListOption options "exclude" "PUBLISH") fun exclude =>
  bindE (probeIntListOption options "eligible" "PUBLISH") fun eligible =>
  bindE (probeDiscloseMeOption options) fun discloseMe =>
  Publish.make session request topic args kwargs acknowledge excludeMe exclude eligible discloseMe

/-- `Publish.parse`: allowed lengths 5, 6, 7. -/
def Publish.parse (wmsg : List PyVal) : Except PyErr Publish :=
  match wmsg with
  | [_, s, r, o, t] => Publish.parseCore s r o t Option.none Option.none
  | [_, s, r, o, t, a] => Publish.parseCore s r o t (some a) Option.none
  | [_, s, r, o, t, a, kw] => Publish.parseCore s r o t (some a) (some kw)
  | _ => .error (.protocolError "invalid message length for PUBLISH")

/-- The options dict built by `Publish.marshal`: one entry per option
attribute that `is not None`, in source insertion order. -/
def Publish.marshalOptions (m : Publish) : List (PyVal × PyVal) :=
  (if isNone m.acknowledge then [] else [(PyVal.str "acknowledge", m.acknowledge)]) ++
  (if isNone m.excludeMe then [] else [(PyVal.str "excludeme", m.excludeMe)]) ++
  (if isNone m.exclude then [] else [(PyVal.str "exclude", m.exclude)]) ++
  (if isNone m.eligible then [] else [(PyVal.str "eligible", m.eligible)]) ++
  (if isNone m.discloseMe then [] else [(PyVal.str "discloseme", m.discloseMe)])

/-- `Publish.marshal`: `if self.kwargs: ... elif self.args: ... else:`. -/
def Publish.marshal (m : Publish) : List PyVal :=
  if truthy m.kwargs then
    [.int 16, m.session, m.request, .dict (Publish.marshalOptions m), m.topic, m.args, m.kwargs]
  else if truthy m.args then
    [.int 16, m.session, m.request, .dict (Publish.marshalOptions m), m.topic, m.args]
  else
    [.int 16, m.session, m.request, .dict (Publish.marshalOptions m), m.topic]

/-- `EVENT` message (code 36): fields assigned by `Event.__init__`. -/
structure Event where
  session : PyVal
  subscription : PyVal
  publication : PyVal
  args : PyVal
  kwargs : PyVal
  publisher : PyVal

/-- `Event.__init__`: `assert(not (kwargs and not args))`, then
attribute assignment. -/
def Event.make (session subscription publication args kwargs publisher : PyVal) :
    Except PyErr Event :=
  if truthy kwargs && !truthy args then .error .assertionError
  else .ok { session := session, subscription := subscription, publication := publication,
             args := args, kwargs := kwargs, publisher := publisher }

/-- `CALL` message (code 48): fields assigned by `Call.__init__`. -/
structure Call where
  session : PyVal
  request : PyVal
  procedure : PyVal
  args : PyVal
  kwargs : PyVal
  callTimeout : PyVal
  receive_progress : PyVal
  discloseMe : PyVal

/-- `Call.__init__`: plain attribute assignment, no assertion. -/
def Call.make (session request procedure args kwargs callTimeout receive_progress discloseMe : PyVal) :
    Except PyErr Call :=
  .ok { session := session, request := request, procedure := procedure, args := args,
        kwargs := kwargs, callTimeout := callTimeout,
        receive_progress := receive_progress, discloseMe := discloseMe }

/-- The body of `Call.parse` after the length dispatch (the `discloseme`
probe shares `Publish.parse`'s `NameError` slip). -/
def Call.parseCore (s r o p : PyVal) (argsSlot kwargsSlot : Option PyVal) :
    Except PyErr Call :=
  bindE (check_or_raise_id s "session in CALL") fun session =>
  bindE (check_or_raise_id r "request in CALL") fun request =>
  bindE (check_or_raise_extra o "options in CALL") fun optionsV =>
  bindE (check_or_raise_uri p "procedure in CALL") fun procedure =>
  bindE (checkArgsSlot argsSlot "CALL") fun args =>
  bindE (checkKwargsSlot kwargsSlot "CALL") fun kwargs =>
  let options := optionsV.dictEntries
  bindE (probeTimeoutOption options "CALL") fun callTimeout =>
  bindE (probeBoolOption options "receive_progress" "CALL") fun receive_progress =>
  bindE (probeDiscloseMeOption options) fun discloseMe =>
  Call.make session request procedure args kwargs callTimeout receive_progress discloseMe

/-- `Call.parse`: allowed lengths 5, 6, 7. -/
def Call.parse (wmsg : List PyVal) : Except PyErr Call :=
  match wmsg with
  | [_, s, r, o, p] => Call.parseCore s r o p Option.none Option.none
  | [_, s, r, o, p, a] => Call.parseCore s r o p (some a) Option.none
  | [_, s, r, o, p, a, kw] => Call.parseCore s r o p (some a) (some kw)
  | _ => .error (.protocolError "invalid message length for CALL")

/-- `INVOCATION` message (code 68): fields assigned by
`Invocation.__init__`. -/
structure Invocation where
  session : PyVal
  request : PyVal
  registration : PyVal
  args : PyVal
  kwargs : PyVal
  callTimeout : PyVal
  receive_progress : PyVal
  caller : PyVal

/-- `Invocation.__init__`: plain attribute assignment, no assertion. -/
def Invocation.make (session request registration args kwargs callTimeout receive_progress caller : PyVal) :
    Except PyErr Invocation :=
  .ok { session := session, request := request, registration := registration, args := args,
        kwargs := kwargs, callTimeout := callTimeout,
        receive_progress := receive_progress, caller := caller }

/-- `RESULT` message (code 50): fields assigned by `Result.__init__`. -/
structure Result where
  session : PyVal
  request : PyVal
  args : PyVal
  kwargs : PyVal
  progress : PyVal

/-- `Result.__init__`: plain attribute assignment, no assertion. -/
def Result.make (session request args kwargs progress : PyVal) : Except PyErr Result :=
  .ok { session := session, request := request, args := args, kwargs := kwargs,
        progress := progress }

/-- `YIELD` message (code 70): fields assigned by `Yield.__init__`. -/
structure Yield where
  session : PyVal
  request : PyVal
  args : PyVal
  kwargs : PyVal
  progress : PyVal

/-- `Yield.__init__`: plain attribute assignment, no assertion. -/
def Yield.make (session request args kwargs progress : PyVal) : Except PyErr Yield :=
  .ok { session := session, request := request, args := args, kwargs := kwargs,
        progress := progress }

/-- `HEARTBEAT` message (code 3): fields assigned by
`Heartbeat.__init__`. -/
structure Heartbeat where
  session : PyVal
  incoming : PyVal
  outgoing : PyVal
  discard : PyVal

/-- The body of `Heartbeat.parse` after the length dispatch:
`incoming` must be an `int`/`long` with `incoming >= 0`, `outgoing` an
`int`/`long` with `outgoing > 0`, and a trailing `discard`, when
present, a string. -/
def Heartbeat.parseCore (s i o : PyVal) (discardSlot : Option PyVal) :
    Except PyErr Heartbeat :=
  bindE (check_or_raise_id s "session in HEARTBEAT") fun session =>
  bindE (match i with
         | .int n =>
             if n < 0 then .error (.protocolError "invalid value for incoming in HEARTBEAT")
             else .ok (PyVal.int n)
         | _ => .error (.protocolError "invalid type for incoming in HEARTBEAT")) fun incoming =>
  bindE (match o with
         | .int n =>
             if n ≤ 0 then .error (.protocolError "invalid value for outgoing in HEARTBEAT")
             else .ok (PyVal.int n)
         | _ => .error (.protocolError "invalid type for outgoing in HEARTBEAT")) fun outgoing =>
  bindE (match discardSlot with
         | Option.none => .ok PyVal.none
         | some (.str d) => .ok (PyVal.str d)
         | some _ => .error (.protocolError "invalid type for discard in HEARTBEAT")) fun discard =>
  .ok { session := session, incoming := incoming, outgoing := outgoing, discard := discard }

/-- `Heartbeat.parse`: allowed lengths 4 and 5. -/
def Heartbeat.parse (wmsg : List PyVal) : Except PyErr Heartbeat :=
  match wmsg with
  | [_, s, i, o] => Heartbeat.parseCore s i o Option.none
  | [_, s, i, o, d] => Heartbeat.parseCore s i o (some d)
  | _ => .error (.protocolError "invalid message length for HEARTBEAT")

/-- The result of one `Message.serialize` call: the returned bytes, the
updated per-instance cache, and how many times `marshal` ran during the
call. -/
structure SerializeResult where
  bytes : List Nat
  cache : List (Nat × List Nat)
  marshalCalls : Nat

/-- `Message.serialize(serializer)` from the base class: the cache is
the `_serialized` dict keyed by serializer identity (modelled as a
`Nat` id); a hit returns the cached bytes, a miss computes
`serializer.serialize(self.marshal())`, stores it and returns it. -/
def Message.serialize (marshalFn : Unit → List PyVal) (serFn : List PyVal → List Nat)
    (sid : Nat) (cache : List (Nat × List Nat)) : SerializeResult :=
  match cache.find? (fun e => e.1 == sid) with
  | some e => { bytes := e.2, cache := cache, marshalCalls := 0 }
  | Option.none =>
      let b := serFn (marshalFn ())
      { bytes := b, cache := (sid, b) :: cache, marshalCalls := 1 }

/-- Congruence for `bindE`: equal continuations give equal results. -/
theorem bindE_congr {α β : Type} {x : Except PyErr α} {f g : α → Except PyErr β}
    (h : ∀ v, f v = g v) : bindE x f = bindE x g := by
  cases x <;> simp [bindE, h]

/-- Claim C1 (code-bug evidence): on the valid UNREGISTERED wire array
`[67, 1, 2]` — both ids pass `check_or_raise_id` — `Unregistered.parse`
raises `TypeError`, because the source constructs `Unregistered(request)`
against the two-parameter `__init__(self, session, request)`.  No object
is ever produced, so `marshal(parse(x)) = x` fails for every valid
UNREGISTERED wire array, contrary to the round-trip claim. -/
theorem claim_C1_eval :
    check_or_raise_id (.int 1) "session in UNREGISTER" = .ok (.int 1)
  ∧ check_or_raise_id (.int 2) "request in UNREGISTER" = .ok (.int 2)
  ∧ Unregistered.parse [.int 67, .int 1, .int 2]
      = .error (.typeError "Unregistered takes exactly 3 arguments (2 given)") :=
  ⟨rfl, rfl, rfl⟩

/-- Claim C2 (code-bug evidence): `ProtocolError` is not the only failure
mode.  A non-boolean `discloseme` option makes `Publish.parse` and
`Call.parse` raise `NameError` (their error format references the
undefined name `option_identifyMe`), and an options mapping with a
non-string key makes `check_or_raise_extra` raise `IndexError` (its
format string has three placeholders but two arguments). -/
theorem claim_C2_eval :
    Publish.parse [.int 16, .int 1, .int 2, .dict [(.str "discloseme", .int 1)],
        .str "com.example.topic"]
      = .error (.nameError "global name option_identifyMe is not defined")
  ∧ Call.parse [.int 48, .int 1, .int 2, .dict [(.str "discloseme", .int 1)],
        .str "com.example.proc"]
      = .error (.nameError "global name option_identifyMe is not defined")
  ∧ check_or_raise_extra (.dict [(.int 1, .str "x")]) "options in SUBSCRIBE"
      = .error (.indexError "tuple index out of range")
  ∧ isProtoError (Publish.parse [.int 16, .int 1, .int 2,
        .dict [(.str "discloseme", .int 1)], .str "com.example.topic"]) = false
  ∧ isProtoError (check_or_raise_extra (.dict [(.int 1, .str "x")])
        "options in SUBSCRIBE") = false :=
  ⟨rfl, rfl, rfl, rfl, rfl⟩

/-- Claim C3 (code-bug evidence): a valid UNSUBSCRIBE wire array of the
single allowed length 4 does not parse into an `Unsubscribe` instance —
the source calls `Unsubscribe(session, request, subscription)` against
the two-parameter `__init__(self, request, subscription)`, raising
`TypeError` — while the out-of-set lengths 3 and 5 do fail with
`ProtocolError` as the claim states. -/
theorem claim_C3_eval :
    Unsubscribe.parse [.int 34, .int 1, .int 2, .int 3]
      = .error (.typeError "Unsubscribe takes exactly 3 arguments (4 given)")
  ∧ isProtoError (Unsubscribe.parse [.int 34, .int 1, .int 2]) = true
  ∧ isProtoError (Unsubscribe.parse [.int 34, .int 1, .int 2, .int 3, .int 4]) = true :=
  ⟨rfl, rfl, rfl⟩

/-- Claim C4: `check_or_raise_id` accepts exactly the `int`-typed values
`v` with `0 <= v <= 9007199254740992`, returns the value unchanged on
success, and raises `ProtocolError` on out-of-range values. -/
theorem claim_C4 :
    (∀ (v : Int) (m : String), 0 ≤ v → v ≤ 9007199254740992 →
        check_or_raise_id (.int v) m = .ok (.int v))
  ∧ (∀ (v : Int) (m : String), v < 0 ∨ 9007199254740992 < v →
        isProtoError (check_or_raise_id (.int v) m) = true)
  ∧ (∀ (x : PyVal) (m : String) (y : PyVal), check_or_raise_id x m = .ok y →
        ∃ v : Int, x = .int v ∧ y = .int v ∧ 0 ≤ v ∧ v ≤ 9007199254740992) := by
  refine ⟨?_, ?_, ?_⟩
  · intro v m h1 h2
    have c : ¬(v < 0 ∨ 9007199254740992 < v) := by omega
    simp [check_or_raise_id, c]
  · intro v m h
    simp [check_or_raise_id, h, isProtoError]
  · intro x m y h
    cases x <;> simp only [check_or_raise_id] at h <;> try exact absurd h (by simp)
    next n =>
      by_cases hc : n < 0 ∨ 9007199254740992 < n
      · rw [if_pos hc] at h; exact absurd h (by simp)
      · rw [if_neg hc] at h
        refine ⟨n, rfl, ?_, by omega, by omega⟩
        cases h; rfl

/-- Claim C4 witness: boundary values 0 and 9007199254740992 accepted
unchanged; 9007199254740993 and a negative value rejected with
`ProtocolError`. -/
theorem claim_C4_wit :
    check_or_raise_id (.int 0) "id" = .ok (.int 0)
  ∧ check_or_raise_id (.int 9007199254740992) "id" = .ok (.int 9007199254740992)
  ∧ isProtoError (check_or_raise_id (.int 9007199254740993) "id") = true
  ∧ isProtoError (check_or_raise_id (.int (-1)) "id") = true :=
  ⟨claim_C4.1 0 "id" (by omega) (by omega),
   claim_C4.1 9007199254740992 "id" (by omega) (by omega),
   claim_C4.2.1 9007199254740993 "id" (by omega),
   claim_C4.2.1 (-1) "id" (by omega)⟩

/-- Claim C5 counterexample: a SUBSCRIBE wire array whose options carry
the unrecognized key `foo` parses successfully, but the parsed instance
records nothing about it, and its marshal emits an empty options
mapping — the key is not re-emitted, refuting wholesale pass-through. -/
theorem claim_C5_cex :
    Subscribe.parse [.int 32, .int 1, .int 2, .dict [(.str "foo", .int 3)],
        .str "com.example.topic"]
      = .ok { session := .int 1, request := .int 2, topic := .str "com.example.topic",
              match_ := .str "exact" }
  ∧ Subscribe.marshal { session := .int 1, request := .int 2,
                        topic := .str "com.example.topic", match_ := .str "exact" }
      = [.int 32, .int 1, .int 2, .dict [], .str "com.example.topic"] :=
  ⟨rfl, rfl⟩

/-- Claim C5 as amended: unrecognized option keys are tolerated (parse
succeeds and ignores them) but are dropped, not preserved — the parsed
`Subscribe` keeps only the recognized `match` value and marshal re-emits
an empty options mapping; the recognized `match` key is still
independently type-checked (must be a string) and value-checked (must be
in the fixed set). -/
theorem claim_C5_amended :
    (∀ (s r : Int) (t k : String) (v : PyVal),
        0 ≤ s → s ≤ 9007199254740992 → 0 ≤ r → r ≤ 9007199254740992 →
        t.length ≠ 0 → k ≠ "match" →
        Subscribe.parse [.int 32, .int s, .int r, .dict [(.str k, v)], .str t]
          = .ok { session := .int s, request := .int r, topic := .str t,
                  match_ := .str "exact" }
      ∧ Subscribe.marshal { session := .int s, request := .int r, topic := .str t,
                            match_ := .str "exact" }
          = [.int 32, .int s, .int r, .dict [], .str t])
  ∧ (∀ (s r : Int) (t : String) (n : Int),
        0 ≤ s → s ≤ 9007199254740992 → 0 ≤ r → r ≤ 9007199254740992 → t.length ≠ 0 →
        isProtoError (Subscribe.parse
          [.int 32, .int s, .int r, .dict [(.str "match", .int n)], .str t]) = true)
  ∧ (∀ (s r : Int) (t m : String),
        0 ≤ s → s ≤ 9007199254740992 → 0 ≤ r → r ≤ 9007199254740992 → t.length ≠ 0 →
        m ≠ "exact" → m ≠ "prefix" → m ≠ "wildcard" →
        isProtoError (Subscribe.parse
          [.int 32, .int s, .int r, .dict [(.str "match", .str m)], .str t]) = true) := by
  refine ⟨?_, ?_, ?_⟩
  · intro s r t k v hs1 hs2 hr1 hr2 ht hk
    have c1 : ¬(s < 0 ∨ 9007199254740992 < s) := by omega
    have c2 : ¬(r < 0 ∨ 9007199254740992 < r) := by omega
    constructor
    · simp [Subscribe.parse, check_or_raise_id, check_or_raise_extra, check_or_raise_uri,
            bindE, c1, c2, ht, PyVal.dictEntries, isStr, dictHasKey, keyEq, hk]
    · rfl
  · intro s r t n hs1 hs2 hr1 hr2 ht
    have c1 : ¬(s < 0 ∨ 9007199254740992 < s) := by omega
    have c2 : ¬(r < 0 ∨ 9007199254740992 < r) := by omega
    simp [Subscribe.parse, check_or_raise_id, check_or_raise_extra, check_or_raise_uri,
          bindE, c1, c2, ht, PyVal.dictEntries, isStr, dictHasKey, keyEq, dictGet,
          List.find?, isProtoError]
  · intro s r t m hs1 hs2 hr1 hr2 ht hm1 hm2 hm3
    have c1 : ¬(s < 0 ∨ 9007199254740992 < s) := by omega
    have c2 : ¬(r < 0 ∨ 9007199254740992 < r) := by omega
    simp [Subscribe.parse, check_or_raise_id, check_or_raise_extra, check_or_raise_uri,
          bindE, c1, c2, ht, PyVal.dictEntries, isStr, dictHasKey, keyEq, dictGet,
          List.find?, isProtoError, hm1, hm2, hm3]

/-- Claim C5 witness: concrete instances of the amended claim — an extra
key is dropped, a non-string `match` and an out-of-set `match` value are
rejected. -/
theorem claim_C5_wit :
    (Subscribe.parse [.int 32, .int 5, .int 6, .dict [(.str "bar", .str "z")],
         .str "com.example.t2"]
       = .ok { session := .int 5, request := .int 6, topic := .str "com.example.t2",
               match_ := .str "exact" }
     ∧ Subscribe.marshal { session := .int 5, request := .int 6,
                           topic := .str "com.example.t2", match_ := .str "exact" }
       = [.int 32, .int 5, .int 6, .dict [], .str "com.example.t2"])
  ∧ isProtoError (Subscribe.parse [.int 32, .int 5, .int 6,
        .dict [(.str "match", .int 5)], .str "com.example.t2"]) = true
  ∧ isProtoError (Subscribe.parse [.int 32, .int 5, .int 6,
        .dict [(.str "match", .str "bogus")], .str "com.example.t2"]) = true :=
  ⟨claim_C5_amended.1 5 6 "com.example.t2" "bar" (.str "z")
     (by omega) (by omega) (by omega) (by omega) (by decide) (by decide),
   claim_C5_amended.2.1 5 6 "com.example.t2" 5
     (by omega) (by omega) (by omega) (by omega) (by decide),
   claim_C5_amended.2.2 5 6 "com.example.t2" "bogus"
     (by omega) (by omega) (by omega) (by omega) (by decide)
     (by decide) (by decide) (by decide)⟩

/-- Claim C6 counterexample: `Result` is a payload-carrying variant, yet
constructing it with a non-empty keyword-arguments mapping and no
positional arguments succeeds — `Result.__init__` has no assertion. -/
theorem claim_C6_cex :
    truthy (.dict [(.str "k", .str "v")]) = true
  ∧ Result.make (.int 1) (.int 2) PyVal.none (.dict [(.str "k", .str "v")]) PyVal.none
      = .ok { session := .int 1, request := .int 2, args := PyVal.none,
              kwargs := .dict [(.str "k", .str "v")], progress := PyVal.none } :=
  ⟨rfl, rfl⟩

/-- Claim C6 as amended: only `Publish` and `Event` assert
`not (kwargs and not args)` at construction; `Error`, `Call`,
`Invocation`, `Result` and `Yield` accept any field combination,
including kwargs without args. -/
theorem claim_C6_amended :
    (∀ (s r t args kwargs a b c d e : PyVal), truthy kwargs = true → truthy args = false →
        Publish.make s r t args kwargs a b c d e = .error .assertionError)
  ∧ (∀ (s sub pub args kwargs p : PyVal), truthy kwargs = true → truthy args = false →
        Event.make s sub pub args kwargs p = .error .assertionError)
  ∧ (∀ (s rt r err args kwargs : PyVal), ∃ m, Error.make s rt r err args kwargs = .ok m)
  ∧ (∀ (s r p args kwargs tm rp dm : PyVal), ∃ m, Call.make s r p args kwargs tm rp dm = .ok m)
  ∧ (∀ (s r reg args kwargs tm rp c : PyVal),
        ∃ m, Invocation.make s r reg args kwargs tm rp c = .ok m)
  ∧ (∀ (s r args kwargs p : PyVal), ∃ m, Result.make s r args kwargs p = .ok m)
  ∧ (∀ (s r args kwargs p : PyVal), ∃ m, Yield.make s r args kwargs p = .ok m) := by
  refine ⟨?_, ?_, ?_, ?_, ?_, ?_, ?_⟩
  · intro s r t args kwargs a b c d e hk ha
    simp [Publish.make, hk, ha]
  · intro s sub pub args kwargs p hk ha
    simp [Event.make, hk, ha]
  · intro s rt r err args kwargs; exact ⟨_, rfl⟩
  · intro s r p args kwargs tm rp dm; exact ⟨_, rfl⟩
  · intro s r reg args kwargs tm rp c; exact ⟨_, rfl⟩
  · intro s r args kwargs p; exact ⟨_, rfl⟩
  · intro s r args kwargs p; exact ⟨_, rfl⟩

/-- Claim C6 witness: with a non-empty kwargs dict and absent args,
`Publish` and `Event` construction fails with `AssertionError` while
`Yield` construction succeeds. -/
theorem claim_C6_wit :
    Publish.make (.int 1) (.int 2) (.str "t") PyVal.none (.dict [(.str "a", .int 1)])
        PyVal.none PyVal.none PyVal.none PyVal.none PyVal.none = .error .assertionError
  ∧ Event.make (.int 1) (.int 2) (.int 3) PyVal.none (.dict [(.str "a", .int 1)])
        PyVal.none = .error .assertionError
  ∧ (∃ m, Yield.make (.int 1) (.int 2) PyVal.none (.dict [(.str "a", .int 1)])
        PyVal.none = .ok m) :=
  ⟨claim_C6_amended.1 (.int 1) (.int 2) (.str "t") PyVal.none (.dict [(.str "a", .int 1)])
     PyVal.none PyVal.none PyVal.none PyVal.none PyVal.none rfl rfl,
   claim_C6_amended.2.1 (.int 1) (.int 2) (.int 3) PyVal.none (.dict [(.str "a", .int 1)])
     PyVal.none rfl rfl,
   claim_C6_amended.2.2.2.2.2.2 (.int 1) (.int 2) PyVal.none
     (.dict [(.str "a", .int 1)]) PyVal.none⟩

/-- Claim C7: on a cache miss, `Message.serialize` computes
`serializer.serialize(marshal())`, stores it under the serializer key
and returns it, invoking `marshal` once; the immediately following call
with the same serializer returns the cached bytes, leaves the cache
unchanged, and invokes `marshal` zero times. -/
theorem claim_C7 (mf : Unit → List PyVal) (sf : List PyVal → List Nat) (sid : Nat)
    (cache : List (Nat × List Nat)) (h : cache.find? (fun e => e.1 == sid) = Option.none) :
    (Message.serialize mf sf sid cache).bytes = sf (mf ()) ∧
    (Message.serialize mf sf sid cache).cache = (sid, sf (mf ())) :: cache ∧
    (Message.serialize mf sf sid cache).marshalCalls = 1 ∧
    (Message.serialize mf sf sid ((sid, sf (mf ())) :: cache)).bytes = sf (mf ()) ∧
    (Message.serialize mf sf sid ((sid, sf (mf ())) :: cache)).cache
      = (sid, sf (mf ())) :: cache ∧
    (Message.serialize mf sf sid ((sid, sf (mf ())) :: cache)).marshalCalls = 0 := by
  have h2 : ((sid, sf (mf ())) :: cache).find? (fun e => e.1 == sid)
      = some (sid, sf (mf ())) := by
    simp [List.find?]
  simp [Message.serialize, h, h2]

/-- Claim C7 witness: serializing a concrete `Subscribe` marshal with a
length-measuring serializer from an empty cache returns the computed
bytes with one `marshal` invocation, and the repeat call returns the
same bytes from the cache with zero invocations. -/
theorem claim_C7_wit :
    (Message.serialize (fun _ => Subscribe.marshal { session := .int 1, request := .int 2, topic := .str "t", match_ := .str "exact" }) (fun w => [w.length]) 7 []).bytes = [5]
  ∧ (Message.serialize (fun _ => Subscribe.marshal { session := .int 1, request := .int 2, topic := .str "t", match_ := .str "exact" }) (fun w => [w.length]) 7 []).marshalCalls = 1
  ∧ (Message.serialize (fun _ => Subscribe.marshal { session := .int 1, request := .int 2, topic := .str "t", match_ := .str "exact" }) (fun w => [w.length]) 7 [(7, [5])]).bytes = [5]
  ∧ (Message.serialize (fun _ => Subscribe.marshal { session := .int 1, request := .int 2, topic := .str "t", match_ := .str "exact" }) (fun w => [w.length]) 7 [(7, [5])]).marshalCalls = 0 := by
  have h := claim_C7 (fun _ => Subscribe.marshal { session := .int 1, request := .int 2, topic := .str "t", match_ := .str "exact" }) (fun w => [w.length]) 7 [] (by rfl)
  exact ⟨h.1, h.2.2.1, h.2.2.2.1, h.2.2.2.2.2⟩

/-- Claim C8: `Heartbeat.parse` accepts an `int` incoming counter `>= 0`
and an `int` outgoing counter `> 0`, and raises `ProtocolError` on a
negative incoming, a non-positive outgoing, or a non-integer counter;
in particular `[3, 1, -1, 5]` fails and incoming 0 with positive
outgoing is accepted. -/
theorem claim_C8 :
    (∀ (s inc out : Int), 0 ≤ s → s ≤ 9007199254740992 → 0 ≤ inc → 0 < out →
        Heartbeat.parse [.int 3, .int s, .int inc, .int out]
          = .ok { session := .int s, incoming := .int inc, outgoing := .int out,
                  discard := PyVal.none })
  ∧ (∀ (s inc out : Int), 0 ≤ s → s ≤ 9007199254740992 → inc < 0 →
        isProtoError (Heartbeat.parse [.int 3, .int s, .int inc, .int out]) = true)
  ∧ (∀ (s inc out : Int), 0 ≤ s → s ≤ 9007199254740992 → 0 ≤ inc → out ≤ 0 →
        isProtoError (Heartbeat.parse [.int 3, .int s, .int inc, .int out]) = true)
  ∧ (∀ (s out : Int) (x : String), 0 ≤ s → s ≤ 9007199254740992 →
        isProtoError (Heartbeat.parse [.int 3, .int s, .str x, .int out]) = true)
  ∧ Heartbeat.parse [.int 3, .int 1, .int (-1), .int 5]
      = .error (.protocolError "invalid value for incoming in HEARTBEAT")
  ∧ Heartbeat.parse [.int 3, .int 1, .int 0, .int 5]
      = .ok { session := .int 1, incoming := .int 0, outgoing := .int 5,
              discard := PyVal.none } := by
  refine ⟨?_, ?_, ?_, ?_, by rfl, by rfl⟩
  · intro s inc out hs1 hs2 hi ho
    have c1 : ¬(s < 0 ∨ 9007199254740992 < s) := by omega
    have c2 : ¬(inc < 0) := by omega
    have c3 : ¬(out ≤ 0) := by omega
    simp [Heartbeat.parse, Heartbeat.parseCore, check_or_raise_id, bindE, c1, c2, c3]
  · intro s inc out hs1 hs2 hi
    have c1 : ¬(s < 0 ∨ 9007199254740992 < s) := by omega
    simp [Heartbeat.parse, Heartbeat.parseCore, check_or_raise_id, bindE, c1, hi,
          isProtoError]
  · intro s inc out hs1 hs2 hi ho
    have c1 : ¬(s < 0 ∨ 9007199254740992 < s) := by omega
    have c2 : ¬(inc < 0) := by omega
    simp [Heartbeat.parse, Heartbeat.parseCore, check_or_raise_id, bindE, c1, c2, ho,
          isProtoError]
  · intro s out x hs1 hs2
    have c1 : ¬(s < 0 ∨ 9007199254740992 < s) := by omega
    simp [Heartbeat.parse, Heartbeat.parseCore, check_or_raise_id, bindE, c1, isProtoError]

/-- Claim C8 witness: concrete valid and invalid heartbeats. -/
theorem claim_C8_wit :
    Heartbeat.parse [.int 3, .int 2, .int 0, .int 9]
      = .ok { session := .int 2, incoming := .int 0, outgoing := .int 9,
              discard := PyVal.none }
  ∧ isProtoError (Heartbeat.parse [.int 3, .int 2, .int (-7), .int 9]) = true
  ∧ isProtoError (Heartbeat.parse [.int 3, .int 2, .int 0, .int 0]) = true
  ∧ isProtoError (Heartbeat.parse [.int 3, .int 2, .str "x", .int 9]) = true :=
  ⟨claim_C8.1 2 0 9 (by omega) (by omega) (by omega) (by omega),
   claim_C8.2.1 2 (-7) 9 (by omega) (by omega) (by omega),
   claim_C8.2.2.1 2 0 0 (by omega) (by omega) (by omega) (by omega),
   claim_C8.2.2.2.1 2 9 "x" (by omega) (by omega)⟩

/-- Claim C9 counterexample: an `Error` legitimately constructed with
`kwargs` set and `args = None` (the `Error` constructor performs no
check) marshals to the 8-element form whose args position holds `None`
— the positional-arguments field is appended although `args` is not a
non-empty list. -/
theorem claim_C9_cex :
    Error.make (.int 1) (.int 32) (.int 10) (.str "com.example.error") PyVal.none
        (.dict [(.str "k", .str "v")])
      = .ok { session := .int 1, request_type := .int 32, request := .int 10,
              error := .str "com.example.error", args := PyVal.none,
              kwargs := .dict [(.str "k", .str "v")] }
  ∧ Error.marshal { session := .int 1, request_type := .int 32, request := .int 10,
                    error := .str "com.example.error", args := PyVal.none,
                    kwargs := .dict [(.str "k", .str "v")] }
      = [.int 4, .int 1, .int 32, .int 10, .dict [], .str "com.example.error", PyVal.none,
         .dict [(.str "k", .str "v")]] :=
  ⟨rfl, rfl⟩

/-- Claim C9 as amended (stated on `Publish`): when `kwargs` is truthy
marshal appends both the args field (whatever its value, even absent or
empty) and the kwargs field; when `kwargs` is falsy the args field is
appended exactly when `args` is truthy — so an empty container with
falsy kwargs is encoded like an absent one, and in particular the
`Publish` parsed from a wire array with an explicit empty args element
marshals back to the 5-element form. -/
theorem claim_C9_amended (p : Publish) :
    (truthy p.kwargs = true →
        Publish.marshal p
          = [.int 16, p.session, p.request, .dict (Publish.marshalOptions p), p.topic,
             p.args, p.kwargs])
  ∧ (truthy p.kwargs = false → truthy p.args = true →
        Publish.marshal p
          = [.int 16, p.session, p.request, .dict (Publish.marshalOptions p), p.topic,
             p.args])
  ∧ (truthy p.kwargs = false → truthy p.args = false →
        Publish.marshal p
          = [.int 16, p.session, p.request, .dict (Publish.marshalOptions p), p.topic])
  ∧ Publish.parse [.int 16, .int 1, .int 2, .dict [], .str "t", .list []]
      = .ok { session := .int 1, request := .int 2, topic := .str "t", args := .list [],
              kwargs := PyVal.none, acknowledge := PyVal.none, excludeMe := PyVal.none,
              exclude := PyVal.none, eligible := PyVal.none, discloseMe := PyVal.none }
  ∧ Publish.marshal { session := .int 1, request := .int 2, topic := .str "t",
                      args := .list [], kwargs := PyVal.none, acknowledge := PyVal.none,
                      excludeMe := PyVal.none, exclude := PyVal.none,
                      eligible := PyVal.none, discloseMe := PyVal.none }
      = [.int 16, .int 1, .int 2, .dict [], .str "t"] := by
  refine ⟨?_, ?_, ?_, by rfl, by rfl⟩
  · intro hk; simp [Publish.marshal, hk]
  · intro hk ha; simp [Publish.marshal, hk, ha]
  · intro hk ha; simp [Publish.marshal, hk, ha]

/-- Claim C9 witness: a concrete `Publish` with non-empty args and
kwargs marshals to the 7-element form. -/
theorem claim_C9_wit :
    Publish.marshal { session := .int 1, request := .int 2, topic := .str "t",
                      args := .list [.int 9], kwargs := .dict [(.str "k", .str "v")],
                      acknowledge := PyVal.none, excludeMe := PyVal.none,
                      exclude := PyVal.none, eligible := PyVal.none,
                      discloseMe := PyVal.none }
      = [.int 16, .int 1, .int 2, .dict [], .str "t", .list [.int 9],
         .dict [(.str "k", .str "v")]] :=
  (claim_C9_amended { session := .int 1, request := .int 2, topic := .str "t",
                      args := .list [.int 9], kwargs := .dict [(.str "k", .str "v")],
                      acknowledge := PyVal.none, excludeMe := PyVal.none,
                      exclude := PyVal.none, eligible := PyVal.none,
                      discloseMe := PyVal.none }).1 rfl

/-- Claim C10: `Error.marshal` emits an empty mapping at wire index 4
for every `Error` instance, and `Error.parse` discards the validated
details element entirely — for each allowed wire length, two wire arrays
differing only in their (string-keyed) details dicts parse to the same
result. -/
theorem claim_C10 :
    (∀ (m : Error), (Error.marshal m).get? 4 = some (.dict []))
  ∧ (∀ (a b c e : PyVal) (d d' : List (PyVal × PyVal)),
        d.all (fun kv => isStr kv.1) = true → d'.all (fun kv => isStr kv.1) = true →
        Error.parse [.int 4, a, b, c, .dict d, e]
          = Error.parse [.int 4, a, b, c, .dict d', e])
  ∧ (∀ (a b c e a6 : PyVal) (d d' : List (PyVal × PyVal)),
        d.all (fun kv => isStr kv.1) = true → d'.all (fun kv => isStr kv.1) = true →
        Error.parse [.int 4, a, b, c, .dict d, e, a6]
          = Error.parse [.int 4, a, b, c, .dict d', e, a6])
  ∧ (∀ (a b c e a6 a7 : PyVal) (d d' : List (PyVal × PyVal)),
        d.all (fun kv => isStr kv.1) = true → d'.all (fun kv => isStr kv.1) = true →
        Error.parse [.int 4, a, b, c, .dict d, e, a6, a7]
          = Error.parse [.int 4, a, b, c, .dict d', e, a6, a7]) := by
  refine ⟨?_, ?_, ?_, ?_⟩
  · intro m
    unfold Error.marshal
    by_cases h1 : truthy m.kwargs <;> by_cases h2 : truthy m.args <;> simp [h1, h2]
  · intro a b c e d d' hd hd'
    show Error.parseCore a b c (.dict d) e Option.none Option.none
        = Error.parseCore a b c (.dict d') e Option.none Option.none
    unfold Error.parseCore
    apply bindE_congr; intro session
    apply bindE_congr; intro request_type
    apply bindE_congr; intro request
    simp [check_or_raise_extra, hd, hd', bindE]
  · intro a b c e a6 d d' hd hd'
    show Error.parseCore a b c (.dict d) e (some a6) Option.none
        = Error.parseCore a b c (.dict d') e (some a6) Option.none
    unfold Error.parseCore
    apply bindE_congr; intro session
    apply bindE_congr; intro request_type
    apply bindE_congr; intro request
    simp [check_or_raise_extra, hd, hd', bindE]
  · intro a b c e a6 a7 d d' hd hd'
    show Error.parseCore a b c (.dict d) e (some a6) (some a7)
        = Error.parseCore a b c (.dict d') e (some a6) (some a7)
    unfold Error.parseCore
    apply bindE_congr; intro session
    apply bindE_congr; intro request_type
    apply bindE_congr; intro request
    simp [check_or_raise_extra, hd, hd', bindE]

/-- Claim C10 witness: a concrete ERROR wire with a non-trivial details
dict parses identically to the same wire with empty details, and a
concrete `Error` marshal carries the empty dict at index 4. -/
theorem claim_C10_wit :
    Error.parse [.int 4, .int 1, .int 32, .int 10, .dict [(.str "x", .int 1)],
        .str "com.example.error"]
      = Error.parse [.int 4, .int 1, .int 32, .int 10, .dict [], .str "com.example.error"]
  ∧ (Error.marshal { session := .int 1, request_type := .int 48, request := .int 11,
                     error := .str "e", args := .list [.int 1], kwargs := PyVal.none }).get? 4
      = some (.dict []) :=
  ⟨claim_C10.2.1 (.int 1) (.int 32) (.int 10) (.str "com.example.error")
     [(.str "x", .int 1)] [] (by rfl) (by rfl),
   claim_C10.1 { session := .int 1, request_type := .int 48, request := .int 11,
                 error := .str "e", args := .list [.int 1], kwargs := PyVal.none }⟩

end Wamp
